import Mathlib

/-!
Verification of the `react-hooks-useEffect` repository examples.

We give a shallow embedding of the example programs:

* `src/examples/cleanUpFunction.js` — a `TimerComponent` whose effect starts a
  `setInterval` incrementing a counter every 1000 ms and returns a cleanup that
  calls `clearInterval`, mounted conditionally by an `App` component on the
  boolean state `showTimer`;
* the README snippets: the `MyComponent` fetch example with no dependency
  array (the infinite-loop warning), and the `Timer` snippets whose interval
  callback is `() => setTime(1)`.

Stateful framework behaviour (mount, interval ticks, unmount, re-render with
dependency-array checks) is embedded as explicit state passing over a small
`Runtime` state, with interval ticks as discrete events (each event stands for
one 1000 ms timer expiry delivered by the host).
-/

/-- Dependency-array semantics of `useEffect`. `deps` is the second argument
(`none` when no dependency array is given). `prev` records the previous effect
run (`none` when the effect has not run yet, otherwise the dependency array
recorded at that run). The effect runs on the first render; afterwards it runs
on every render when it has no dependency array, and otherwise exactly when
the array differs from the recorded one. -/
def effectShouldRun (deps : Option (List Nat)) : Option (Option (List Nat)) → Bool
  | none => true
  | some prev =>
    match deps, prev with
    | none, _ => true
    | some _, none => true
    | some ds, some ps => decide (ds ≠ ps)

/-! ## `TimerComponent` and `App` (src/examples/cleanUpFunction.js, first copy) -/

/-- The initial value of the `count` state: `useState(0)`. -/
def initialCount : Nat := 0

/-- The interval callback's state update: `setCount((prevCount) => prevCount + 1)`. -/
def tickUpdate (prevCount : Nat) : Nat := prevCount + 1

/-- The interval period passed to `setInterval` (milliseconds). -/
def intervalPeriodMs : Nat := 1000

/-- The dependency array of the `TimerComponent` effect: `[]` (empty array). -/
def timerDeps : Option (List Nat) := some []

/-- The rendered output of `TimerComponent`: `<h1>Timer: {count}</h1>`. -/
def timerComponentView (count : Nat) : String := "Timer: " ++ toString count

/-- The initial value of the `showTimer` state in `App`: `useState(true)`. -/
def initialShowTimer : Bool := true

/-- The click handler `toggleTimer`: `setShowTimer(!showTimer)` replaces
`showTimer` with its negation. -/
def toggleTimer (showTimer : Bool) : Bool := !showTimer

/-- The button label: `{showTimer ? 'Unmount Timer' : 'Mount Timer'}`. -/
def buttonLabel (showTimer : Bool) : String :=
  if showTimer then "Unmount Timer" else "Mount Timer"

/-- The conditional rendering `{showTimer && <TimerComponent />}`: the timer is
rendered exactly when `showTimer` holds. -/
def timerMountedWhen (showTimer : Bool) : Bool := showTimer

/-- A mounted `TimerComponent` instance: its `count` state, the interval ids
created by this instance's effect runs (most recent first; the head is the
`interval` handle captured by the pending cleanup closure), the number of
completed effect runs, and the dependency array recorded at the last run. -/
structure TimerInstance where
  count : Nat
  intervals : List Nat
  effectRuns : Nat
  prevDeps : Option (Option (List Nat))
  deriving DecidableEq, Repr

/-- The host runtime: the (at most one) mounted `TimerComponent` instance, the
ids of intervals currently registered with `setInterval` (those whose callbacks
still fire), and a fresh-id counter. -/
structure Runtime where
  inst : Option TimerInstance
  live : List Nat
  nextId : Nat
  deriving DecidableEq, Repr

/-- The runtime before the application starts: nothing mounted, no interval
registered. -/
def emptyRuntime : Runtime := { inst := none, live := [], nextId := 0 }

/-- The effect body of `TimerComponent`:
`const interval = setInterval(() => setCount((prevCount) => prevCount + 1), 1000)`
registers a fresh interval; the run records its dependency array `[]` and the
returned cleanup closes over `interval` (the head of `intervals`). -/
def runTimerEffect (r : Runtime) (inst : TimerInstance) : Runtime :=
  { inst := some { inst with
      intervals := r.nextId :: inst.intervals,
      effectRuns := inst.effectRuns + 1,
      prevDeps := some timerDeps },
    live := r.nextId :: r.live,
    nextId := r.nextId + 1 }

/-- The cleanup returned by the most recent effect run:
`() => { clearInterval(interval); }` unregisters the captured interval. -/
def runTimerCleanup (r : Runtime) (inst : TimerInstance) : Runtime :=
  match inst.intervals with
  | [] => r
  | id :: _ => { r with live := r.live.erase id }

/-- Mounting `TimerComponent`: a fresh instance is created with
`count = initialCount` and, the first render done, its effect runs. -/
def mountTimer (r : Runtime) : Runtime :=
  match r.inst with
  | some _ => r
  | none =>
    runTimerEffect r
      { count := initialCount, intervals := [], effectRuns := 0, prevDeps := none }

/-- A re-render of the mounted instance (after a state update): the effect
re-runs exactly when `effectShouldRun timerDeps` says so, running the previous
cleanup first. -/
def rerenderTimer (r : Runtime) : Runtime :=
  match r.inst with
  | some inst =>
    if effectShouldRun timerDeps inst.prevDeps then
      runTimerEffect (runTimerCleanup r inst) inst
    else r
  | none => r

/-- Interval `id` expires. If it is still registered its callback runs:
`setCount((prevCount) => prevCount + 1)` updates the owning instance's state
and triggers a re-render. A tick of an unregistered id, or of an interval not
owned by the mounted instance, changes nothing. -/
def fireTick (r : Runtime) (id : Nat) : Runtime :=
  if id ∈ r.live then
    match r.inst with
    | some inst =>
      if id ∈ inst.intervals then
        rerenderTimer { r with inst := some { inst with count := tickUpdate inst.count } }
      else r
    | none => r
  else r

/-- Unmounting `TimerComponent`: the effect cleanup runs
(`clearInterval(interval)`) and the instance is destroyed. -/
def unmountTimer (r : Runtime) : Runtime :=
  match r.inst with
  | some inst => { runTimerCleanup r inst with inst := none }
  | none => r

/-- Run `n` consecutive expiries of interval `id`. -/
def ticks (id : Nat) (n : Nat) (r : Runtime) : Runtime :=
  (fun s => fireTick s id)^[n] r

/-- The counter shown by the mounted instance, if any. -/
def displayedCount (r : Runtime) : Option Nat :=
  r.inst.map (fun i => i.count)

/-- Whether the callback of interval `id` still fires on expiry. -/
def callbackFires (r : Runtime) (id : Nat) : Bool :=
  r.live.contains id

/-- The `App` component state: its `showTimer` state together with the runtime
hosting the conditionally mounted `TimerComponent`. -/
structure AppState where
  showTimer : Bool
  rt : Runtime
  deriving DecidableEq, Repr

/-- The app after its first render: `showTimer` is `initialShowTimer = true`,
so `TimerComponent` is mounted. -/
def appInit : AppState :=
  { showTimer := initialShowTimer,
    rt := if timerMountedWhen initialShowTimer then mountTimer emptyRuntime else emptyRuntime }

/-- An external event: a click of the toggle button, or the expiry of
interval `id`. -/
inductive AppEvent where
  | click : AppEvent
  | tick : Nat → AppEvent
  deriving DecidableEq, Repr

/-- One event step of the app. A click runs `toggleTimer` and re-renders
`App`: `{showTimer && <TimerComponent />}` mounts the timer when the new state
holds and unmounts it otherwise. -/
def appStep (s : AppState) : AppEvent → AppState
  | AppEvent.click =>
    let show' := toggleTimer s.showTimer
    { showTimer := show',
      rt := if timerMountedWhen show' then mountTimer s.rt else unmountTimer s.rt }
  | AppEvent.tick id => { s with rt := fireTick s.rt id }

/-- Running the app over a list of events. -/
def appRun (s : AppState) : List AppEvent → AppState
  | [] => s
  | e :: es => appRun (appStep s e) es

/-! ## README `MyComponent` (fetch example with no dependency array) -/

/-- State of the README infinite-loop example `MyComponent`:
`joke` is the `useState([])` state (`none` while it still holds the initial
`[]`, `some v` once `setJoke(myJoke.value)` has stored a fetched value),
`renders` counts renders performed so far, `effectDone` counts completed
effect runs, and `prevDeps` records the last run as in `effectShouldRun`. -/
structure MyComponentState where
  joke : Option String
  renders : Nat
  effectDone : Nat
  prevDeps : Option (Option (List Nat))
  deriving DecidableEq, Repr

/-- The effect of `MyComponent` is given no dependency array. -/
def myComponentDeps : Option (List Nat) := none

/-- The state of `MyComponent` right after its first render. -/
def myComponentInit : MyComponentState :=
  { joke := none, renders := 1, effectDone := 0, prevDeps := none }

/-- One render/effect round of `MyComponent`, with `fetchJoke k` the value the
`k`-th fetch resolves to. When the dependency check says the effect runs, it
fetches, `setJoke` stores the value, and the state update triggers the next
render; otherwise nothing further happens. -/
def myComponentStep (fetchJoke : Nat → String) (s : MyComponentState) : MyComponentState :=
  if effectShouldRun myComponentDeps s.prevDeps then
    { joke := some (fetchJoke s.effectDone),
      renders := s.renders + 1,
      effectDone := s.effectDone + 1,
      prevDeps := some myComponentDeps }
  else s

/-- A state is terminal when its pending render triggers no further effect
run (and hence no further state update and no further render). -/
def myComponentTerminal (s : MyComponentState) : Bool :=
  !effectShouldRun myComponentDeps s.prevDeps

/-! ## README `Timer` snippets (`setInterval(() => setTime(1), 1000)`) -/

/-- The README `Timer` interval callback's state update: `setTime(1)` sets the
`time` state to the constant `1`, whatever it was before. -/
def readmeSetTime (_time : Nat) : Nat := 1

/-- The initial value of the `time` state: `useState(0)`. -/
def readmeInitialTime : Nat := 0

/-- The `time` state after `n` interval ticks of the README `Timer`. -/
def readmeTimeAfter (n : Nat) : Nat :=
  readmeSetTime^[n] readmeInitialTime

/-! ## The two copies inside src/examples/cleanUpFunction.js -/

/-- The logical content of one copy of the example program: the constants and
functions appearing in its `TimerComponent` and `App` definitions. -/
structure TimerProgram where
  initCount : Nat
  periodMs : Nat
  update : Nat → Nat
  deps : Option (List Nat)
  view : Nat → String
  initShowTimer : Bool
  toggle : Bool → Bool
  label : Bool → String
  mountedWhen : Bool → Bool

/-- The copy of the program before the document separator (lines 1–40). -/
def firstCopy : TimerProgram :=
  { initCount := initialCount,
    periodMs := intervalPeriodMs,
    update := tickUpdate,
    deps := timerDeps,
    view := timerComponentView,
    initShowTimer := initialShowTimer,
    toggle := toggleTimer,
    label := buttonLabel,
    mountedWhen := timerMountedWhen }

/-- The copy of the program after the document separator (lines 41–80),
translated afresh from that text. -/
def secondCopy : TimerProgram :=
  { initCount := 0,
    periodMs := 1000,
    update := fun prevCount => prevCount + 1,
    deps := some [],
    view := fun count => "Timer: " ++ toString count,
    initShowTimer := true,
    toggle := fun showTimer => !showTimer,
    label := fun showTimer => if showTimer then "Unmount Timer" else "Mount Timer",
    mountedWhen := fun showTimer => showTimer }

/-! ## Helper lemmas -/

lemma mount_ticks_normal (n : Nat) :
    ticks 0 n (mountTimer emptyRuntime) =
      { inst := some { count := n, intervals := [0], effectRuns := 1, prevDeps := some timerDeps },
        live := [0], nextId := 1 } := by
  induction n with
  | zero => rfl
  | succ k ih =>
    unfold ticks at ih ⊢
    rw [Function.iterate_succ_apply', ih]
    rfl

lemma unmount_after_ticks (n : Nat) :
    unmountTimer (ticks 0 n (mountTimer emptyRuntime)) =
      { inst := none, live := [], nextId := 1 } := by
  rw [mount_ticks_normal]
  rfl

lemma ticks_unmounted (m k : Nat) :
    ticks 0 m { inst := none, live := [], nextId := k } =
      { inst := none, live := [], nextId := k } := by
  induction m with
  | zero => rfl
  | succ j ih =>
    unfold ticks at ih ⊢
    rw [Function.iterate_succ_apply', ih]
    rfl

lemma mountTimer_isSome (r : Runtime) : (mountTimer r).inst.isSome = true := by
  cases h : r.inst with
  | some i => simp [mountTimer, h]
  | none => simp [mountTimer, h, runTimerEffect]

lemma unmountTimer_inst (r : Runtime) : (unmountTimer r).inst = none := by
  cases h : r.inst with
  | some i => simp [unmountTimer, h]
  | none => simp [unmountTimer, h]

lemma rerenderTimer_isSome (r : Runtime) :
    (rerenderTimer r).inst.isSome = r.inst.isSome := by
  cases h : r.inst with
  | none => simp [rerenderTimer, h]
  | some i =>
    simp only [rerenderTimer, h]
    split
    · simp [runTimerEffect]
    · simp [h]

lemma fireTick_isSome (r : Runtime) (id : Nat) :
    (fireTick r id).inst.isSome = r.inst.isSome := by
  unfold fireTick
  split
  · cases h : r.inst with
    | none => simp [h]
    | some i =>
      simp only [h]
      split
      · rw [rerenderTimer_isSome]
        rfl
      · simp [h]
  · rfl

lemma appStep_inv (s : AppState) (e : AppEvent)
    (h : s.rt.inst.isSome = s.showTimer) :
    (appStep s e).rt.inst.isSome = (appStep s e).showTimer := by
  cases e with
  | click =>
    cases hs : s.showTimer <;>
      simp [appStep, toggleTimer, timerMountedWhen, hs,
        mountTimer_isSome, unmountTimer_inst]
  | tick id =>
    simpa [appStep, fireTick_isSome] using h

lemma appRun_inv (es : List AppEvent) (s : AppState)
    (h : s.rt.inst.isSome = s.showTimer) :
    (appRun s es).rt.inst.isSome = (appRun s es).showTimer := by
  induction es generalizing s with
  | nil => exact h
  | cons e es ih => exact ih (appStep s e) (appStep_inv s e h)

lemma effectShouldRun_noDeps (p : Option (Option (List Nat))) :
    effectShouldRun none p = true := by
  cases p with
  | none => rfl
  | some prev => cases prev <;> rfl

lemma myComponent_iterate (fetchJoke : Nat → String) (n : Nat) :
    ((myComponentStep fetchJoke)^[n] myComponentInit).renders = n + 1 ∧
    ((myComponentStep fetchJoke)^[n] myComponentInit).effectDone = n := by
  induction n with
  | zero => exact ⟨rfl, rfl⟩
  | succ k ih =>
    rw [Function.iterate_succ_apply']
    simp [myComponentStep, myComponentDeps, effectShouldRun_noDeps, ih.1, ih.2]

/-! ## Claim theorems -/

/-- C1: while `TimerComponent` is mounted, the displayed counter increases by
exactly 1 on every interval tick, so after `n` ticks since mount the displayed
count is `n` (rendered as `Timer: n`). -/
theorem timer_count_equals_ticks (n : Nat) :
    displayedCount (ticks 0 n (mountTimer emptyRuntime)) = some n ∧
    displayedCount (fireTick (ticks 0 n (mountTimer emptyRuntime)) 0) = some (n + 1) ∧
    (ticks 0 n (mountTimer emptyRuntime)).inst.map
      (fun i => timerComponentView i.count) = some ("Timer: " ++ toString n) := by
  rw [mount_ticks_normal]
  exact ⟨rfl, rfl, rfl⟩

/-- C2: when `TimerComponent` is unmounted its cleanup runs `clearInterval` on
the interval handle created at mount, so afterwards no interval is registered,
its callback no longer fires, and any number of further tick events leaves the
state unchanged (the counter receives no further increments). -/
theorem cleanup_stops_interval (n m : Nat) :
    (unmountTimer (ticks 0 n (mountTimer emptyRuntime))).live = [] ∧
    callbackFires (unmountTimer (ticks 0 n (mountTimer emptyRuntime))) 0 = false ∧
    ticks 0 m (unmountTimer (ticks 0 n (mountTimer emptyRuntime))) =
      unmountTimer (ticks 0 n (mountTimer emptyRuntime)) := by
  rw [unmount_after_ticks]
  exact ⟨rfl, rfl, ticks_unmounted m 1⟩

/-- C3 (evaluation at the failing input): after three ticks and a click of the
`Unmount Timer` button, the interval's callback no longer fires and further
tick events change nothing — the interval does not keep running after unmount,
contrary to the file's trailing comment. -/
theorem unmounted_timer_does_not_leak :
    callbackFires (appRun appInit
      [AppEvent.tick 0, AppEvent.tick 0, AppEvent.tick 0, AppEvent.click]).rt 0 = false ∧
    appRun (appRun appInit
        [AppEvent.tick 0, AppEvent.tick 0, AppEvent.tick 0, AppEvent.click])
      [AppEvent.tick 0, AppEvent.tick 0] =
    appRun appInit
      [AppEvent.tick 0, AppEvent.tick 0, AppEvent.tick 0, AppEvent.click] := by
  decide

/-- C4: in the README `MyComponent` with no dependency array, the effect runs
after every render and its `setJoke` triggers the next render: after any number
of rounds the state is never terminal (the render/effect cycle has no
terminating execution), with one render and one effect run added per round. -/
theorem noDeps_effect_loops_forever (fetchJoke : Nat → String) (n : Nat) :
    myComponentTerminal ((myComponentStep fetchJoke)^[n] myComponentInit) = false ∧
    ((myComponentStep fetchJoke)^[n] myComponentInit).renders = n + 1 ∧
    ((myComponentStep fetchJoke)^[n] myComponentInit).effectDone = n := by
  refine ⟨?_, (myComponent_iterate fetchJoke n).1, (myComponent_iterate fetchJoke n).2⟩
  simp [myComponentTerminal, myComponentDeps, effectShouldRun_noDeps]

/-- C5: in every state the `App` can reach from its first render,
`TimerComponent` is mounted exactly when `showTimer` is true, a click replaces
`showTimer` with its negation, and the button label agrees with `showTimer`. -/
theorem app_mount_agrees_with_showTimer (es : List AppEvent) :
    ((appRun appInit es).rt.inst.isSome = (appRun appInit es).showTimer) ∧
    (appStep (appRun appInit es) AppEvent.click).showTimer
      = !(appRun appInit es).showTimer ∧
    buttonLabel (appRun appInit es).showTimer
      = (if (appRun appInit es).showTimer then "Unmount Timer" else "Mount Timer") := by
  exact ⟨appRun_inv es appInit rfl, rfl, rfl⟩

/-- C6: the copy of the example program before the document separator and the
copy after it have identical logical content: the two `TimerProgram`s are
equal. -/
theorem copies_identical : firstCopy = secondCopy := rfl

/-- C7: with its empty dependency array, the `TimerComponent` effect runs
exactly once per mount; at every point of a mounted run exactly one interval
created by the instance exists (and is the only registered one), and
unmounting then remounting yields a fresh instance whose counter is 0. -/
theorem empty_deps_effect_runs_once (n : Nat) :
    (ticks 0 n (mountTimer emptyRuntime)).inst.map
      (fun i => i.effectRuns) = some 1 ∧
    (ticks 0 n (mountTimer emptyRuntime)).inst.map
      (fun i => i.intervals.length) = some 1 ∧
    (ticks 0 n (mountTimer emptyRuntime)).live = [0] ∧
    displayedCount (mountTimer (unmountTimer (ticks 0 n (mountTimer emptyRuntime))))
      = some 0 := by
  rw [mount_ticks_normal]
  exact ⟨rfl, rfl, rfl, rfl⟩

/-- C8: in the README `Timer` snippets every interval tick calls `setTime(1)`,
setting the `time` state to the constant 1, so for any number of ticks the
`time` state never exceeds 1. -/
theorem readme_timer_never_exceeds_one :
    (∀ t, readmeSetTime t = 1) ∧ (∀ n, readmeTimeAfter n ≤ 1) := by
  refine ⟨fun t => rfl, fun n => ?_⟩
  cases n with
  | zero => exact Nat.zero_le 1
  | succ m =>
    rw [readmeTimeAfter, Function.iterate_succ_apply']
    exact Nat.le_refl 1

/-- C9: `toggleTimer` is an involution on the `showTimer` state: applying it
twice returns any state to its original value. -/
theorem toggleTimer_involutive (showTimer : Bool) :
    toggleTimer (toggleTimer showTimer) = showTimer := by
  cases showTimer <;> rfl
